import Mathlib

/-!
# scriptkeeper: the C tracing proof of concept

A shallow embedding of `src/poc.c` (`peekuser`, `main_`) and of
`src/c-tracing-poc.c` (`c_ptrace_peekdata`).

The two files are straight-line C over the operating system's process-control
interface (`fork`, `ptrace`, `execl`, `wait`) and `printf`.  The operating
system is not part of the repository: it is a parameter `OS σ` of every
embedded function, an arbitrary transition system over a kernel state `σ` that
answers each request.  A running process is a `Proc σ`: the requests it has
issued so far (oldest first), its `errno`, and the kernel state.  Every C
function becomes a function on `Proc σ`; a C `int`, `long` or `pid_t` is an
`Int` (the only arithmetic in the sources is the constant `8 * ORIG_RAX`, which
is shown to fit an `int`), and a pointer argument is the `Int` it holds, `NULL`
being `0`.
-/

namespace Scriptkeeper

/-! ## The interface of the operating system -/

/-- The `ptrace` requests that occur in the sources. -/
inductive PtraceRequest where
  | PTRACE_TRACEME
  | PTRACE_PEEKDATA
  | PTRACE_PEEKUSER
  | PTRACE_CONT
  deriving DecidableEq

/-- The null pointer, as the integer a pointer argument carries. -/
def NULL : Int := 0

/-- Modelled from the spec: the macro `ORIG_RAX` of the system header
`<sys/reg.h>`, which is not in the repository.  It is the "specific index within
a fixed-size register array" of the syscall-number register; on x86-64 the
header defines it as 15. -/
def ORIG_RAX : Int := 15

/-- One request of a process to its environment, with the arguments of the C
call: `execl(path, arg0, ..., NULL)` carries the argument vector without the
terminating `NULL`, `wait(wstatus)` the pointer it was given, and `printf` its
format and the values of its variadic arguments. -/
inductive Call where
  | fork
  | ptrace (request : PtraceRequest) (pid : Int) (addr : Int) (data : Int)
  | execl (path : String) (argv : List String)
  | wait (wstatus : Int)
  | printf (format : String) (args : List Int)
  deriving DecidableEq

/-- What the kernel answers to `fork` or `ptrace`: a value, or a failure with
its error number. -/
inductive Answer where
  | ok (value : Int)
  | error (errno : Int)
  deriving DecidableEq

/-- What the kernel answers to `execl`: the image was replaced (the call does
not return), or a failure with its error number. -/
inductive ExecAnswer where
  | replaced
  | error (errno : Int)
  deriving DecidableEq

/-- What the kernel answers to `wait`: a child stopped on a signal, exited with a
status, was killed by a signal, or the wait failed. -/
inductive WaitAnswer where
  | stopped (pid : Int) (signal : Int)
  | exited (pid : Int) (status : Int)
  | killed (pid : Int) (signal : Int)
  | error (errno : Int)
  deriving DecidableEq

/-- The operating system as the sources see it: for every request, the answer
and the next kernel state.  `printf` only has an effect (both call sites discard
its result). -/
structure OS (σ : Type) where
  fork : σ → Answer × σ
  ptrace : PtraceRequest → Int → Int → Int → σ → Answer × σ
  execl : String → List String → σ → ExecAnswer × σ
  wait : σ → WaitAnswer × σ
  printf : String → List Int → σ → σ

/-- A process in execution: the requests issued so far, oldest first, the
process's `errno`, and the state of the kernel. -/
structure Proc (σ : Type) where
  calls : List Call
  errno : Int
  os : σ

/-! ## The C library's view of the answers

The functions `fork`, `ptrace`, `execl`, `wait` and `printf` belong to the C
library, not to the repository.  Each is modelled by what the sources can
observe of it (spec, section 6: a word or an error sentinel): it records the
request, lets the kernel answer, returns the value or the sentinel `-1`, and
sets `errno` on failure; `ptrace` also clears `errno` after a successful read. -/

/-- The value a C call returns for an answer: the value itself, or the sentinel
`-1` on failure. -/
def Answer.ret : Answer → Int
  | .ok value => value
  | .error _ => -1

/-- The `errno` after a call: set on failure, untouched on success. -/
def Answer.errnoAfter (old : Int) : Answer → Int
  | .ok _ => old
  | .error errno => errno

/-- The two read requests, whose result is the word read. -/
def PtraceRequest.isPeek : PtraceRequest → Bool
  | .PTRACE_PEEKDATA => true
  | .PTRACE_PEEKUSER => true
  | _ => false

/-- The `errno` after `ptrace`: set on failure; after a successful read request
the C library clears it to 0, so that a caller can tell a word equal to `-1`
from a failure; after any other successful request it is untouched. -/
def Answer.ptraceErrnoAfter (request : PtraceRequest) (old : Int) : Answer → Int
  | .ok _ => if request.isPeek then 0 else old
  | .error errno => errno

/-- The value `wait` returns: the pid of the child that changed state, or `-1`. -/
def WaitAnswer.ret : WaitAnswer → Int
  | .stopped pid _ => pid
  | .exited pid _ => pid
  | .killed pid _ => pid
  | .error _ => -1

/-- The `errno` after `wait`. -/
def WaitAnswer.errnoAfter (old : Int) : WaitAnswer → Int
  | .error errno => errno
  | _ => old

/-- The value `execl` returns when it returns at all: `none` stands for a
replaced image, after which no statement of the caller runs. -/
def ExecAnswer.ret : ExecAnswer → Option Int
  | .replaced => none
  | .error _ => some (-1)

/-- The `errno` after `execl`. -/
def ExecAnswer.errnoAfter (old : Int) : ExecAnswer → Int
  | .replaced => old
  | .error errno => errno

variable {σ : Type}

/-- The call `fork()`. -/
def fork (w : OS σ) (p : Proc σ) : Int × Proc σ :=
  let r := w.fork p.os
  (r.1.ret, { calls := p.calls ++ [Call.fork], errno := r.1.errnoAfter p.errno, os := r.2 })

/-- The call `ptrace(request, pid, addr, data)`. -/
def ptrace (w : OS σ) (request : PtraceRequest) (pid addr data : Int) (p : Proc σ) :
    Int × Proc σ :=
  let r := w.ptrace request pid addr data p.os
  (r.1.ret, { calls := p.calls ++ [Call.ptrace request pid addr data],
              errno := r.1.ptraceErrnoAfter request p.errno, os := r.2 })

/-- The call `execl(path, argv..., NULL)`. -/
def execl (w : OS σ) (path : String) (argv : List String) (p : Proc σ) :
    Option Int × Proc σ :=
  let r := w.execl path argv p.os
  (r.1.ret, { calls := p.calls ++ [Call.execl path argv],
              errno := r.1.errnoAfter p.errno, os := r.2 })

/-- The call `wait(wstatus)`.  Only `wait(NULL)` occurs in the sources, for which
the status of the child is not stored anywhere. -/
def wait (w : OS σ) (wstatus : Int) (p : Proc σ) : Int × Proc σ :=
  let r := w.wait p.os
  (r.1.ret, { calls := p.calls ++ [Call.wait wstatus],
              errno := r.1.errnoAfter p.errno, os := r.2 })

/-- The call `printf(format, args...)`, its result discarded. -/
def printf (w : OS σ) (format : String) (args : List Int) (p : Proc σ) : Proc σ :=
  { calls := p.calls ++ [Call.printf format args], errno := p.errno,
    os := w.printf format args p.os }

/-! ## `src/c-tracing-poc.c` -/

/-- The function `long c_ptrace_peekdata(pid_t child, long address)`, whose body
is `return ptrace(PTRACE_PEEKDATA, child, address, NULL);`. -/
def c_ptrace_peekdata (w : OS σ) (child address : Int) (p : Proc σ) : Int × Proc σ :=
  ptrace w .PTRACE_PEEKDATA child address NULL p

/-! ## `src/poc.c` -/

/-- The function `void peekuser(int child)`: prints the offset `8 * ORIG_RAX`,
reads the word of the register file at that offset with `PTRACE_PEEKUSER`, prints
the word. -/
def peekuser (w : OS σ) (child : Int) (p : Proc σ) : Proc σ :=
  let p1 := printf w "C: offset: %i\n" [8 * ORIG_RAX] p
  let r := ptrace w .PTRACE_PEEKUSER child (8 * ORIG_RAX) NULL p1
  let orig_rax := r.1
  printf w "C: The child made a system call %ld\n" [orig_rax] r.2

/-- The function `int main_()`: `fork`, then in the child (`child == 0`)
`PTRACE_TRACEME` and `execl`, otherwise `wait(NULL)`, `peekuser(child)` and
`PTRACE_CONT`; after either branch `return 0`.  The result is `none` when the
process image was replaced by `execl` (the function never returns), `some v` when
it returns `v`. -/
def main_ (w : OS σ) (p : Proc σ) : Option Int × Proc σ :=
  let r := fork w p
  let child := r.1
  if child = 0 then
    let p2 := (ptrace w .PTRACE_TRACEME 0 NULL NULL r.2).2
    let e := execl w "/bin/ls" ["ls"] p2
    match e.1 with
    | none => (none, e.2)
    | some _ => (some 0, e.2)
  else
    let p2 := (wait w NULL r.2).2
    let p3 := peekuser w child p2
    let p4 := (ptrace w .PTRACE_CONT child NULL NULL p3).2
    (some 0, p4)

/-- The word `peekuser` reads with its `PTRACE_PEEKUSER` request when it is
entered in kernel state `s`: the first `printf` has run before the request. -/
def peekuserWord (w : OS σ) (child : Int) (s : σ) : Int :=
  (w.ptrace .PTRACE_PEEKUSER child (8 * ORIG_RAX) NULL
    (w.printf "C: offset: %i\n" [8 * ORIG_RAX] s)).1.ret

/-! ## Reading a trace -/

/-- The register-file reads in a list of requests, as pairs (pid, byte offset). -/
def registerReads : List Call → List (Int × Int)
  | [] => []
  | Call.ptrace .PTRACE_PEEKUSER pid addr _ :: rest => (pid, addr) :: registerReads rest
  | _ :: rest => registerReads rest

/-- The `ptrace` requests in a list of requests, in order. -/
def traceOps : List Call → List Call
  | [] => []
  | Call.ptrace request pid addr data :: rest =>
      Call.ptrace request pid addr data :: traceOps rest
  | _ :: rest => traceOps rest

/-- The number of `wait` requests in a list of requests. -/
def waits : List Call → Nat
  | [] => 0
  | Call.wait _ :: rest => waits rest + 1
  | _ :: rest => waits rest

/-- The process-control requests in a list of requests: everything but the
printing. -/
def controlCalls : List Call → List Call
  | [] => []
  | Call.printf _ _ :: rest => controlCalls rest
  | c :: rest => c :: controlCalls rest

/-- The three requests of one run of `peekuser` that read the word `orig_rax`. -/
def peekuserCalls (child orig_rax : Int) : List Call :=
  [Call.printf "C: offset: %i\n" [120],
   Call.ptrace .PTRACE_PEEKUSER child 120 NULL,
   Call.printf "C: The child made a system call %ld\n" [orig_rax]]

/-- The requests of the `else` branch of `main_`, `fork` included, when `fork`
returned `child` and the register read returned `orig_rax`. -/
def parentCalls (child orig_rax : Int) : List Call :=
  [Call.fork, Call.wait NULL] ++ peekuserCalls child orig_rax ++
    [Call.ptrace .PTRACE_CONT child NULL NULL]

/-- The requests of the `then` branch of `main_`, `fork` included. -/
def childCalls : List Call :=
  [Call.fork, Call.ptrace .PTRACE_TRACEME 0 NULL NULL, Call.execl "/bin/ls" ["ls"]]

/-! ## A reference kernel

A small kernel with one tracee, used to run the embedded functions on concrete
inputs.  The answers to `fork`, `execl` and `wait` are scripted in the kernel
state; the tracee has a state of the spec's state machine, a register file and
a memory, and the read requests are answered from them. -/

/-- The states of a tracee (spec, section 3). -/
inductive TraceeState where
  | Created | Attached | Stopped | Running | Exited | Failed
  deriving DecidableEq

/-- The tracee as the kernel holds it: its pid, its state, its register file
(byte offset ↦ word) and its memory (address ↦ word). -/
structure Tracee where
  pid : Int
  state : TraceeState
  user : List (Int × Int)
  memory : List (Int × Int)
  deriving DecidableEq

/-- The state of the reference kernel. -/
structure Kernel where
  forkAnswer : Answer
  execAnswer : ExecAnswer
  waitAnswer : WaitAnswer
  tracee : Tracee
  stdout : List (String × List Int)
  deriving DecidableEq

def ENOENT : Int := 2
def ESRCH : Int := 3
def EIO : Int := 5
def ECHILD : Int := 10
def EAGAIN : Int := 11
def SIGTRAP : Int := 5

/-- A read of the word at `addr` in `table`, allowed on the stopped tracee only. -/
def Tracee.peek (t : Tracee) (table : List (Int × Int)) (pid addr : Int) : Answer :=
  if pid = t.pid ∧ t.state = .Stopped then
    match table.lookup addr with
    | some word => .ok word
    | none => .error EIO
  else .error ESRCH

/-- The tracee after `wait` has reported `a`. -/
def Tracee.afterWait (t : Tracee) : WaitAnswer → Tracee
  | .stopped _ _ => { t with state := .Stopped }
  | .exited _ _ => { t with state := .Exited }
  | .killed _ _ => { t with state := .Exited }
  | .error _ => t

/-- The reference kernel's answer to `ptrace`. -/
def Kernel.ptrace (request : PtraceRequest) (pid addr _data : Int) (k : Kernel) :
    Answer × Kernel :=
  match request with
  | .PTRACE_TRACEME => (.ok 0, { k with tracee := { k.tracee with state := .Attached } })
  | .PTRACE_PEEKDATA => (k.tracee.peek k.tracee.memory pid addr, k)
  | .PTRACE_PEEKUSER => (k.tracee.peek k.tracee.user pid addr, k)
  | .PTRACE_CONT =>
      if pid = k.tracee.pid ∧ k.tracee.state = .Stopped then
        (.ok 0, { k with tracee := { k.tracee with state := .Running } })
      else (.error ESRCH, k)

/-- The reference kernel. -/
def linux : OS Kernel where
  fork k := (k.forkAnswer, k)
  ptrace := Kernel.ptrace
  execl _ _ k := (k.execAnswer, k)
  wait k := (k.waitAnswer, { k with tracee := k.tracee.afterWait k.waitAnswer })
  printf format args k := { k with stdout := k.stdout ++ [(format, args)] }

/-- A tracee with pid 1234 in the given state: its syscall-number register
(offset 120) holds 59, the word at address 4096 is 42, the word at address 4104
is -1, and no other address is mapped. -/
def tracee1234 (state : TraceeState) : Tracee :=
  { pid := 1234, state := state, user := [(120, 59)], memory := [(4096, 42), (4104, -1)] }

/-- A fresh process on the reference kernel with the given script. -/
def boot (forkAnswer : Answer) (execAnswer : ExecAnswer) (waitAnswer : WaitAnswer)
    (state : TraceeState) : Proc Kernel :=
  { calls := [], errno := 0,
    os := { forkAnswer := forkAnswer, execAnswer := execAnswer, waitAnswer := waitAnswer,
            tracee := tracee1234 state, stdout := [] } }

/-- The parent of a traced `ls`: `fork` returns 1234, the child stops at its
exec trap. -/
def parentRun : Proc Kernel :=
  boot (.ok 1234) .replaced (.stopped 1234 SIGTRAP) .Created

/-- The child of the same run: `fork` returns 0 and the image is replaced. -/
def childRun : Proc Kernel :=
  boot (.ok 0) .replaced (.error ECHILD) .Created

/-- A child whose `execl` fails with `ENOENT`. -/
def childExecFails : Proc Kernel :=
  boot (.ok 0) (.error ENOENT) (.error ECHILD) .Created

/-- A parent whose tracee has already exited with status 1 when `wait` returns. -/
def parentChildExited : Proc Kernel :=
  boot (.ok 1234) (.error ENOENT) (.exited 1234 1) .Created

/-- A process whose `fork` fails with `EAGAIN`; it has no child, so `wait` fails
with `ECHILD`. -/
def forkFails : Proc Kernel :=
  boot (.error EAGAIN) .replaced (.error ECHILD) .Failed

/-- A controller whose tracee 1234 is stopped. -/
def stoppedRun : Proc Kernel :=
  boot (.ok 1234) .replaced (.stopped 1234 SIGTRAP) .Stopped

/-! ## The requests of each function -/

theorem fork_calls (w : OS σ) (p : Proc σ) : (fork w p).2.calls = p.calls ++ [Call.fork] :=
  rfl

theorem wait_calls (w : OS σ) (wstatus : Int) (p : Proc σ) :
    (wait w wstatus p).2.calls = p.calls ++ [Call.wait wstatus] :=
  rfl

theorem ptrace_calls (w : OS σ) (request : PtraceRequest) (pid addr data : Int) (p : Proc σ) :
    (ptrace w request pid addr data p).2.calls =
      p.calls ++ [Call.ptrace request pid addr data] :=
  rfl

theorem execl_calls (w : OS σ) (path : String) (argv : List String) (p : Proc σ) :
    (execl w path argv p).2.calls = p.calls ++ [Call.execl path argv] :=
  rfl

theorem offset_eq : 8 * ORIG_RAX = 120 := by decide

theorem peekuser_calls (w : OS σ) (child : Int) (p : Proc σ) :
    (peekuser w child p).calls = p.calls ++ peekuserCalls child (peekuserWord w child p.os) := by
  simp [peekuser, printf, ptrace, peekuserCalls, peekuserWord, offset_eq]

/-- The `else` branch of `main_`, taken whenever `fork` returned a value other
than 0. -/
theorem main__else (w : OS σ) (p : Proc σ) (h : (fork w p).1 ≠ 0) :
    main_ w p =
      (some 0, (ptrace w .PTRACE_CONT (fork w p).1 NULL NULL
        (peekuser w (fork w p).1 (wait w NULL (fork w p).2).2)).2) := by
  simp [main_, h]

/-- The requests of the `else` branch. -/
theorem main__else_calls (w : OS σ) (p : Proc σ) (h : (fork w p).1 ≠ 0) :
    (main_ w p).2.calls =
      p.calls ++ parentCalls (fork w p).1
        (peekuserWord w (fork w p).1 (wait w NULL (fork w p).2).2.os) := by
  rw [main__else w p h]
  simp [ptrace_calls, peekuser_calls, wait_calls, fork_calls, parentCalls]

/-- The `then` branch of `main_`, taken when `fork` returned 0. -/
theorem main__then (w : OS σ) (p : Proc σ) (h : (fork w p).1 = 0) :
    main_ w p =
      ((execl w "/bin/ls" ["ls"] (ptrace w .PTRACE_TRACEME 0 NULL NULL (fork w p).2).2).1.map
          (fun _ => 0),
        (execl w "/bin/ls" ["ls"] (ptrace w .PTRACE_TRACEME 0 NULL NULL (fork w p).2).2).2) := by
  simp only [main_, h, if_true]
  cases (execl w "/bin/ls" ["ls"] (ptrace w .PTRACE_TRACEME 0 NULL NULL (fork w p).2).2).1 <;> rfl

/-- The requests of the `then` branch. -/
theorem main__then_calls (w : OS σ) (p : Proc σ) (h : (fork w p).1 = 0) :
    (main_ w p).2.calls = p.calls ++ childCalls := by
  rw [main__then w p h]
  simp [execl_calls, ptrace_calls, fork_calls, childCalls]

theorem registerReads_append (xs ys : List Call) :
    registerReads (xs ++ ys) = registerReads xs ++ registerReads ys := by
  induction xs with
  | nil => rfl
  | cons c rest ih =>
    cases c with
    | ptrace request pid addr data => cases request <;> simp [registerReads, ih]
    | _ => simp [registerReads, ih]

theorem traceOps_append (xs ys : List Call) :
    traceOps (xs ++ ys) = traceOps xs ++ traceOps ys := by
  induction xs with
  | nil => rfl
  | cons c rest ih => cases c <;> simp [traceOps, ih]

theorem waits_append (xs ys : List Call) : waits (xs ++ ys) = waits xs + waits ys := by
  induction xs with
  | nil => simp [waits]
  | cons c rest ih =>
    cases c <;> simp [waits, ih]
    omega

theorem controlCalls_append (xs ys : List Call) :
    controlCalls (xs ++ ys) = controlCalls xs ++ controlCalls ys := by
  induction xs with
  | nil => rfl
  | cons c rest ih => cases c <;> simp [controlCalls, ih]

/-! ## The claims -/

/-- C1: when `fork` returned a positive pid, the requests `main_` issues after
the `fork` are, in this order: `wait(NULL)`, the requests of `peekuser` for that
pid (the register read `PTRACE_PEEKUSER` between its two `printf`s), and
`PTRACE_CONT` for the same pid with data `NULL`, that is, with no signal.
Printing aside, the requests are exactly the wait, the register read and the
resume request, in this order. -/
theorem main__parent_order (w : OS σ) (p : Proc σ) (h : 0 < (fork w p).1) :
    ∃ orig_rax : Int,
      (main_ w p).2.calls =
        p.calls ++
          [Call.fork,
           Call.wait NULL,
           Call.printf "C: offset: %i\n" [120],
           Call.ptrace .PTRACE_PEEKUSER (fork w p).1 120 NULL,
           Call.printf "C: The child made a system call %ld\n" [orig_rax],
           Call.ptrace .PTRACE_CONT (fork w p).1 NULL NULL] ∧
      controlCalls (main_ w p).2.calls =
        controlCalls p.calls ++
          [Call.fork,
           Call.wait NULL,
           Call.ptrace .PTRACE_PEEKUSER (fork w p).1 120 NULL,
           Call.ptrace .PTRACE_CONT (fork w p).1 NULL NULL] := by
  have hne : (fork w p).1 ≠ 0 := by omega
  refine ⟨peekuserWord w (fork w p).1 (wait w NULL (fork w p).2).2.os, ?_, ?_⟩
  · rw [main__else_calls w p hne]; rfl
  · rw [main__else_calls w p hne, controlCalls_append]; rfl

theorem main__parent_order_witness :
    0 < (fork linux parentRun).1 ∧
    ∃ orig_rax : Int,
      (main_ linux parentRun).2.calls =
        parentRun.calls ++
          [Call.fork,
           Call.wait NULL,
           Call.printf "C: offset: %i\n" [120],
           Call.ptrace .PTRACE_PEEKUSER (fork linux parentRun).1 120 NULL,
           Call.printf "C: The child made a system call %ld\n" [orig_rax],
           Call.ptrace .PTRACE_CONT (fork linux parentRun).1 NULL NULL] ∧
      controlCalls (main_ linux parentRun).2.calls =
        controlCalls parentRun.calls ++
          [Call.fork,
           Call.wait NULL,
           Call.ptrace .PTRACE_PEEKUSER (fork linux parentRun).1 120 NULL,
           Call.ptrace .PTRACE_CONT (fork linux parentRun).1 NULL NULL] :=
  ⟨by decide, main__parent_order linux parentRun (by decide)⟩

/-- C2: when `fork` returned 0, `main_` issues after the `fork` exactly two
requests: `PTRACE_TRACEME` (once, with pid 0 and null pointers), then the image
replacement `execl` for the path "/bin/ls" with argument vector ["ls"]; this
holds whether or not the image replacement succeeds, and `PTRACE_TRACEME` is the
only `ptrace` request of the run. -/
theorem main__child_order (w : OS σ) (p : Proc σ) (h : (fork w p).1 = 0) :
    (main_ w p).2.calls =
      p.calls ++
        [Call.fork,
         Call.ptrace .PTRACE_TRACEME 0 NULL NULL,
         Call.execl "/bin/ls" ["ls"]] ∧
    traceOps (main_ w p).2.calls =
      traceOps p.calls ++ [Call.ptrace .PTRACE_TRACEME 0 NULL NULL] := by
  constructor
  · rw [main__then_calls w p h]; rfl
  · rw [main__then_calls w p h, traceOps_append]; rfl

theorem main__child_order_witness :
    (fork linux childRun).1 = 0 ∧
    (main_ linux childRun).2.calls =
      childRun.calls ++
        [Call.fork,
         Call.ptrace .PTRACE_TRACEME 0 NULL NULL,
         Call.execl "/bin/ls" ["ls"]] ∧
    traceOps (main_ linux childRun).2.calls =
      traceOps childRun.calls ++ [Call.ptrace .PTRACE_TRACEME 0 NULL NULL] :=
  ⟨by decide, main__child_order linux childRun (by decide)⟩

/-- C3: for every pid, kernel and process state, `peekuser` issues exactly three
requests: a `printf` reporting the offset, one `PTRACE_PEEKUSER` for that pid at
the same offset with data `NULL`, and a `printf` of the word read.  The offset is
`8 * ORIG_RAX`; with `ORIG_RAX = 15` it is 120, which fits a C `int`.  The
register read is the only register read of the call. -/
theorem peekuser_reads_orig_rax (w : OS σ) (child : Int) (p : Proc σ) :
    (peekuser w child p).calls =
      p.calls ++
        [Call.printf "C: offset: %i\n" [8 * ORIG_RAX],
         Call.ptrace .PTRACE_PEEKUSER child (8 * ORIG_RAX) NULL,
         Call.printf "C: The child made a system call %ld\n" [peekuserWord w child p.os]] ∧
    registerReads (peekuser w child p).calls =
      registerReads p.calls ++ [(child, 8 * ORIG_RAX)] ∧
    ORIG_RAX = 15 ∧ 8 * ORIG_RAX = 120 ∧ -(2 ^ 31) ≤ 8 * ORIG_RAX ∧ 8 * ORIG_RAX < 2 ^ 31 := by
  refine ⟨?_, ?_, rfl, offset_eq, by decide, by decide⟩
  · rw [peekuser_calls, offset_eq]; rfl
  · rw [peekuser_calls, registerReads_append, offset_eq]; rfl

/-- C4, as stated, fails: `peekuser` has no offset parameter, so the caller cannot
choose the offset.  On the reference kernel with tracee 1234 stopped, it is not
the case that for every offset the register read of `peekuser 1234` is at that
offset (the read is at 120, whatever the caller wants). -/
theorem peekuser_offset_not_chosen :
    ¬ ∀ offset : Int,
        registerReads (peekuser linux 1234 stoppedRun).calls = [(1234, offset)] := by
  intro h
  exact absurd (h 0) (by decide)

/-- C4, amended: the byte offset of the register read is fixed inside `peekuser`
as `8 * ORIG_RAX = 120`; the caller supplies only the pid.  For every kernel,
every pid and every process state, the offsets of the register reads after
`peekuser` are those before it followed by 120. -/
theorem peekuser_offset_fixed (w : OS σ) (child : Int) (p : Proc σ) :
    (registerReads (peekuser w child p).calls).map Prod.snd =
      (registerReads p.calls).map Prod.snd ++ [8 * ORIG_RAX] ∧
    8 * ORIG_RAX = 120 := by
  refine ⟨?_, offset_eq⟩
  rw [peekuser_calls, registerReads_append, offset_eq]
  simp [peekuserCalls, registerReads]

/-- C5: `c_ptrace_peekdata child address` issues exactly one request,
`PTRACE_PEEKDATA` for that pid and address with data `NULL`, leaves the kernel in
the state that request produced, and returns the C value of the kernel's answer
unchanged.  Hence it returns -1 both when the read failed (with any error
number) and when the read succeeded and the word is -1. -/
theorem c_ptrace_peekdata_forwards (w : OS σ) (child address : Int) (p : Proc σ) :
    (c_ptrace_peekdata w child address p).2.calls =
      p.calls ++ [Call.ptrace .PTRACE_PEEKDATA child address NULL] ∧
    (c_ptrace_peekdata w child address p).2.os =
      (w.ptrace .PTRACE_PEEKDATA child address NULL p.os).2 ∧
    (c_ptrace_peekdata w child address p).1 =
      (w.ptrace .PTRACE_PEEKDATA child address NULL p.os).1.ret ∧
    (∀ word : Int, (w.ptrace .PTRACE_PEEKDATA child address NULL p.os).1 = .ok word →
      (c_ptrace_peekdata w child address p).1 = word) ∧
    (∀ errno : Int, (w.ptrace .PTRACE_PEEKDATA child address NULL p.os).1 = .error errno →
      (c_ptrace_peekdata w child address p).1 = -1) := by
  refine ⟨rfl, rfl, rfl, ?_, ?_⟩
  · intro word h
    simp [c_ptrace_peekdata, ptrace, h, Answer.ret]
  · intro errno h
    simp [c_ptrace_peekdata, ptrace, h, Answer.ret]

/-- C5 on the reference kernel: with tracee 1234 stopped, the read at the unmapped
address 0 fails and the read at address 4104 succeeds with the word -1; both
calls return the same value, -1. -/
theorem c_ptrace_peekdata_forwards_witness :
    (linux.ptrace .PTRACE_PEEKDATA 1234 0 NULL stoppedRun.os).1 = .error EIO ∧
    (linux.ptrace .PTRACE_PEEKDATA 1234 4104 NULL stoppedRun.os).1 = .ok (-1) ∧
    (c_ptrace_peekdata linux 1234 0 stoppedRun).1 = -1 ∧
    (c_ptrace_peekdata linux 1234 4104 stoppedRun).1 = -1 :=
  ⟨by decide, by decide,
   (c_ptrace_peekdata_forwards linux 1234 0 stoppedRun).2.2.2.2 EIO (by decide),
   (c_ptrace_peekdata_forwards linux 1234 4104 stoppedRun).2.2.2.1 (-1) (by decide)⟩

/-- C6, as stated, fails: on the reference kernel, `fork` returns 1234 and the
`wait` of `main_` reports that child 1234 has exited with status 1; `main_` then
still issues the register read and the resume request for pid 1234. -/
theorem main__reads_after_exit :
    (linux.wait (fork linux parentChildExited).2.os).1 = .exited 1234 1 ∧
    (main_ linux parentChildExited).2.calls =
      [Call.fork,
       Call.wait NULL,
       Call.printf "C: offset: %i\n" [120],
       Call.ptrace .PTRACE_PEEKUSER 1234 120 NULL,
       Call.printf "C: The child made a system call %ld\n" [-1],
       Call.ptrace .PTRACE_CONT 1234 NULL NULL] := by
  decide

/-- C6, amended: `main_` does not look at what its `wait(NULL)` reports.  Whenever
`fork` returned a value other than 0, whatever the answer of the kernel to the
wait is (stopped, exited, killed or an error), `main_` issues after the wait the
register read `PTRACE_PEEKUSER` and then `PTRACE_CONT` for the value `fork`
returned, and these are its only `ptrace` requests. -/
theorem main__ignores_wait (w : OS σ) (p : Proc σ) (answer : WaitAnswer)
    (h : (fork w p).1 ≠ 0) (ha : (w.wait (fork w p).2.os).1 = answer) :
    (wait w NULL (fork w p).2).1 = answer.ret ∧
    (main_ w p).2.calls =
      p.calls ++ parentCalls (fork w p).1
        (peekuserWord w (fork w p).1 (w.wait (fork w p).2.os).2) ∧
    traceOps (main_ w p).2.calls =
      traceOps p.calls ++
        [Call.ptrace .PTRACE_PEEKUSER (fork w p).1 120 NULL,
         Call.ptrace .PTRACE_CONT (fork w p).1 NULL NULL] := by
  refine ⟨?_, ?_, ?_⟩
  · simp [wait, ha]
  · rw [main__else_calls w p h]; rfl
  · rw [main__else_calls w p h, traceOps_append]; rfl

theorem main__ignores_wait_witness :
    (fork linux parentChildExited).1 ≠ 0 ∧
    (linux.wait (fork linux parentChildExited).2.os).1 = .exited 1234 1 ∧
    (wait linux NULL (fork linux parentChildExited).2).1 = (WaitAnswer.exited 1234 1).ret ∧
    (main_ linux parentChildExited).2.calls =
      parentChildExited.calls ++ parentCalls (fork linux parentChildExited).1
        (peekuserWord linux (fork linux parentChildExited).1
          (linux.wait (fork linux parentChildExited).2.os).2) ∧
    traceOps (main_ linux parentChildExited).2.calls =
      traceOps parentChildExited.calls ++
        [Call.ptrace .PTRACE_PEEKUSER (fork linux parentChildExited).1 120 NULL,
         Call.ptrace .PTRACE_CONT (fork linux parentChildExited).1 NULL NULL] :=
  ⟨by decide, by decide,
   main__ignores_wait linux parentChildExited (.exited 1234 1) (by decide) (by decide)⟩

/-- C7, as stated, fails: on the reference kernel with a failing `fork` (it
returns -1), `main_` still issues the wait, the register read and the resume
request, both for pid -1, and returns 0, the value it also returns after a
successful run in the parent. -/
theorem main__fork_failure_goes_on :
    (fork linux forkFails).1 = -1 ∧
    (main_ linux forkFails).2.calls =
      [Call.fork,
       Call.wait NULL,
       Call.printf "C: offset: %i\n" [120],
       Call.ptrace .PTRACE_PEEKUSER (-1) 120 NULL,
       Call.printf "C: The child made a system call %ld\n" [-1],
       Call.ptrace .PTRACE_CONT (-1) NULL NULL] ∧
    (main_ linux forkFails).1 = some 0 ∧
    (main_ linux parentRun).1 = some 0 := by
  decide

/-- C7, amended: when `fork` returns -1, `main_` takes the same branch as the
parent of a successful `fork`: it issues `wait(NULL)`, then the requests of
`peekuser` for pid -1, then `PTRACE_CONT` for pid -1, and returns 0. -/
theorem main__fork_failure (w : OS σ) (p : Proc σ) (h : (fork w p).1 = -1) :
    (main_ w p).1 = some 0 ∧
    controlCalls (main_ w p).2.calls =
      controlCalls p.calls ++
        [Call.fork,
         Call.wait NULL,
         Call.ptrace .PTRACE_PEEKUSER (-1) 120 NULL,
         Call.ptrace .PTRACE_CONT (-1) NULL NULL] := by
  have hne : (fork w p).1 ≠ 0 := by omega
  constructor
  · rw [main__else w p hne]
  · rw [main__else_calls w p hne, controlCalls_append, h]; rfl

theorem main__fork_failure_witness :
    (fork linux forkFails).1 = -1 ∧
    (main_ linux forkFails).1 = some 0 ∧
    controlCalls (main_ linux forkFails).2.calls =
      controlCalls forkFails.calls ++
        [Call.fork,
         Call.wait NULL,
         Call.ptrace .PTRACE_PEEKUSER (-1) 120 NULL,
         Call.ptrace .PTRACE_CONT (-1) NULL NULL] :=
  ⟨by decide, main__fork_failure linux forkFails (by decide)⟩

/-- C8, as stated, fails: on the reference kernel, in the child (`fork` returned
0) whose `execl` fails with `ENOENT` and returns -1, `main_` returns 0, the
success status. -/
theorem main__exec_failure_returns_zero :
    (fork linux childExecFails).1 = 0 ∧
    (execl linux "/bin/ls" ["ls"]
      (ptrace linux .PTRACE_TRACEME 0 NULL NULL (fork linux childExecFails).2).2).1 =
        some (-1) ∧
    (main_ linux childExecFails).1 = some 0 := by
  decide

/-- C8, amended: when `fork` returned 0 and the image replacement fails, `main_`
does not examine the failure: it issues no further request and returns 0, and
`errno` holds the error number of the failed `execl`. -/
theorem main__child_exec_failure (w : OS σ) (p : Proc σ) (errno : Int)
    (h : (fork w p).1 = 0)
    (he : (w.execl "/bin/ls" ["ls"]
      (ptrace w .PTRACE_TRACEME 0 NULL NULL (fork w p).2).2.os).1 = .error errno) :
    (main_ w p).1 = some 0 ∧
    (main_ w p).2.calls =
      p.calls ++
        [Call.fork,
         Call.ptrace .PTRACE_TRACEME 0 NULL NULL,
         Call.execl "/bin/ls" ["ls"]] ∧
    (main_ w p).2.errno = errno := by
  refine ⟨?_, ?_, ?_⟩
  · rw [main__then w p h]
    simp [execl, he, ExecAnswer.ret]
  · rw [main__then_calls w p h]; rfl
  · rw [main__then w p h]
    simp [execl, he, ExecAnswer.errnoAfter]

theorem main__child_exec_failure_witness :
    (fork linux childExecFails).1 = 0 ∧
    (linux.execl "/bin/ls" ["ls"]
      (ptrace linux .PTRACE_TRACEME 0 NULL NULL (fork linux childExecFails).2).2.os).1 =
        .error ENOENT ∧
    (main_ linux childExecFails).1 = some 0 ∧
    (main_ linux childExecFails).2.calls =
      childExecFails.calls ++
        [Call.fork,
         Call.ptrace .PTRACE_TRACEME 0 NULL NULL,
         Call.execl "/bin/ls" ["ls"]] ∧
    (main_ linux childExecFails).2.errno = ENOENT :=
  ⟨by decide, by decide,
   main__child_exec_failure linux childExecFails ENOENT (by decide) (by decide)⟩

/-- C9, as stated, fails: on the reference kernel, in the parent of a traced
`ls`, the last request of `main_` is `PTRACE_CONT`; the run contains one `wait`,
the one before the register read, and `main_` returns 0 while the tracee is
running. -/
theorem main__no_second_wait :
    (main_ linux parentRun).2.calls =
      [Call.fork,
       Call.wait NULL,
       Call.printf "C: offset: %i\n" [120],
       Call.ptrace .PTRACE_PEEKUSER 1234 120 NULL,
       Call.printf "C: The child made a system call %ld\n" [59],
       Call.ptrace .PTRACE_CONT 1234 NULL NULL] ∧
    waits (main_ linux parentRun).2.calls = 1 ∧
    (main_ linux parentRun).1 = some 0 ∧
    (main_ linux parentRun).2.os.tracee.state = .Running := by
  decide

/-- C9, amended: in the parent (`fork` returned a value other than 0), the resume
request `PTRACE_CONT` is the last request of `main_`: `main_` returns 0 in the
state that request produced, and the run contains exactly one `wait`, the one
issued before the register read. -/
theorem main__returns_after_resume (w : OS σ) (p : Proc σ) (h : (fork w p).1 ≠ 0) :
    (main_ w p).1 = some 0 ∧
    (main_ w p).2 =
      (ptrace w .PTRACE_CONT (fork w p).1 NULL NULL
        (peekuser w (fork w p).1 (wait w NULL (fork w p).2).2)).2 ∧
    (main_ w p).2.calls.getLast? = some (Call.ptrace .PTRACE_CONT (fork w p).1 NULL NULL) ∧
    waits (main_ w p).2.calls = waits p.calls + 1 := by
  refine ⟨?_, ?_, ?_, ?_⟩
  · rw [main__else w p h]
  · rw [main__else w p h]
  · rw [main__else_calls w p h]
    simp [parentCalls, peekuserCalls]
  · rw [main__else_calls w p h, waits_append]; rfl

theorem main__returns_after_resume_witness :
    (fork linux parentRun).1 ≠ 0 ∧
    (main_ linux parentRun).1 = some 0 ∧
    (main_ linux parentRun).2 =
      (ptrace linux .PTRACE_CONT (fork linux parentRun).1 NULL NULL
        (peekuser linux (fork linux parentRun).1
          (wait linux NULL (fork linux parentRun).2).2)).2 ∧
    (main_ linux parentRun).2.calls.getLast? =
      some (Call.ptrace .PTRACE_CONT (fork linux parentRun).1 NULL NULL) ∧
    waits (main_ linux parentRun).2.calls = waits parentRun.calls + 1 :=
  ⟨by decide, main__returns_after_resume linux parentRun (by decide)⟩

end Scriptkeeper
